import Mathlib

/-!
Verification of the Auto-Model-Img-Gen repository.

This development gives a shallow embedding of the repository's core logic:
* the auto model selection engine (`parseRecommendation`, `selectGuidanceType`,
  `analyzeTextComplexity`, `selectOptimalModel` from the auto model selection
  module — the later of the two revisions present in the sources, the one the
  spec's line references point at);
* the generation-job pipeline fragments of `App.tsx` that the spec's claims
  mention (`enhanceWithGemini`'s model validation, the enhancement-failure
  fallback, the alchemy/contrast payload flags, the submit/poll outcome
  handling);
* the output-connector fan-out computation of `NodeComponent.tsx` together with
  the output-port declarations of the `NODE_TYPES` registry.

JavaScript strings are modelled as Lean `String`s, JS numbers that the code
only ever uses as non-negative integers as `Nat`, and the contrast slider value
(a JS double used only through comparison and `Math.max`, both exact) as `ℚ`.
-/

namespace AutoModelImgGen

/-! ### JS string primitives -/

/-- The double-quote character (written via its code point to keep the
source free of quote-character literals). -/
def dquoteChar : Char := Char.ofNat 34

/-- The single-quote character. -/
def squoteChar : Char := Char.ofNat 39

/-- `pat.isPrefixOf s` style prefix test on char lists, then shifted across
`s`: the substring test underlying JS `String.prototype.includes`. -/
def listIsInfix (pat : List Char) : List Char → Bool
  | [] => pat.isEmpty
  | c :: t => pat.isPrefixOf (c :: t) || listIsInfix pat t

/-- JS `s.includes(pat)`. -/
def jsIncludes (s pat : String) : Bool :=
  listIsInfix pat.data s.data

/-- The characters treated as whitespace by the JS regex class `\s` that can
occur in the inputs we model (space, tab, newline, carriage return, vertical
tab, form feed). -/
def jsIsSpace (c : Char) : Bool :=
  c = ' ' || c = '\t' || c = '\n' || c = '\r' || c = Char.ofNat 11 || c = Char.ofNat 12

/-- JS `s.trim()` on a char list. -/
def jsTrim (s : List Char) : List Char :=
  ((s.dropWhile jsIsSpace).reverse.dropWhile jsIsSpace).reverse

/-- Number of maximal runs of non-whitespace characters; the accumulator
records whether we are currently inside such a run. -/
def countWordRuns : Bool → List Char → Nat
  | _, [] => 0
  | inWord, c :: t =>
    if jsIsSpace c then countWordRuns false t
    else (if inWord then 0 else 1) + countWordRuns true t

/-- JS `s.trim().split(/\s+/).length`: splitting the empty string yields the
one-element array `[""]`, otherwise the count of whitespace-separated words. -/
def jsWordCount (s : List Char) : Nat :=
  let t := jsTrim s
  if t.isEmpty then 1 else countWordRuns false t

/-! ### Auto model selection: data model (auto model selection module) -/

/-- The guidance kinds of the capability table
(`'CONTEXT' | 'STYLE' | 'CONTENT' | 'CHARACTER'`). -/
inductive GuidanceKind where
  | CONTEXT
  | STYLE
  | CONTENT
  | CHARACTER
deriving DecidableEq, BEq, Repr

/-- `interface ModelCapabilities` of the auto model selection module. -/
structure ModelCapabilities where
  name : String
  rank : Nat
  canHandleText : Bool
  canHandleImageEdit : Bool
  maxReferenceImages : Nat
  supportedGuidanceTypes : List GuidanceKind
deriving DecidableEq, Repr

/-- The `MODEL_CAPABILITIES` table (later revision: `Lucid Origin` has
`canHandleText: true`). -/
def MODEL_CAPABILITIES : List ModelCapabilities :=
  [ { name := "Lucid Origin", rank := 1, canHandleText := true,
      canHandleImageEdit := true, maxReferenceImages := 1,
      supportedGuidanceTypes := [.CONTENT, .STYLE] },
    { name := "FLUX.1 Kontext Pro", rank := 2, canHandleText := true,
      canHandleImageEdit := false, maxReferenceImages := 1,
      supportedGuidanceTypes := [.CONTEXT] },
    { name := "Leonardo Phoenix 1.0", rank := 3, canHandleText := true,
      canHandleImageEdit := false, maxReferenceImages := 6,
      supportedGuidanceTypes := [.CONTENT, .STYLE, .CHARACTER] } ]

/-- `IMAGE_EDIT_MODELS`. -/
def IMAGE_EDIT_MODELS : List String := ["FLUX.1 Kontext"]

/-- `interface ParsedRecommendation`. -/
structure ParsedRecommendation where
  needsText : Bool
  needsImageEdit : Bool
  preferredGuidanceTypes : List GuidanceKind
deriving DecidableEq, Repr

/-- `parseRecommendation` (later revision: `needsText` requires one of the
specific `NEEDS TEXT LONG` / `NEEDS TEXT SHORT` markers). -/
def parseRecommendation (recommendationString : String) : ParsedRecommendation :=
  let needsText := jsIncludes recommendationString "NEEDS TEXT LONG" ||
                   jsIncludes recommendationString "NEEDS TEXT SHORT"
  let needsImageEdit := jsIncludes recommendationString "IMAGE EDIT"
  let preferredGuidanceTypes :=
    (if jsIncludes recommendationString "STYLE REF" then [GuidanceKind.STYLE] else []) ++
    (if jsIncludes recommendationString "CONTENT REF" then [GuidanceKind.CONTENT] else []) ++
    (if jsIncludes recommendationString "CHARACTER REF" then [GuidanceKind.CHARACTER] else [])
  { needsText := needsText, needsImageEdit := needsImageEdit,
    preferredGuidanceTypes := preferredGuidanceTypes }

/-- The loop of `selectGuidanceType` over `preferredGuidanceTypes`: the first
preferred kind the model supports is mapped to its UI name by the `switch`;
the `switch` has no `CONTEXT` case, so a supported `CONTEXT` preference falls
through and the loop continues. -/
def firstPreferredGuidanceName (supported : List GuidanceKind) :
    List GuidanceKind → Option String
  | [] => none
  | t :: rest =>
    if supported.contains t then
      match t with
      | .STYLE => some "Style Reference"
      | .CONTENT => some "Content Reference"
      | .CHARACTER => some "Character Reference"
      | .CONTEXT => firstPreferredGuidanceName supported rest
    else firstPreferredGuidanceName supported rest

/-- `selectGuidanceType`. -/
def selectGuidanceType (modelName : String)
    (preferredGuidanceTypes : List GuidanceKind) : String :=
  if modelName = "FLUX.1 Kontext Pro" || modelName = "FLUX.1 Kontext" then
    "Context Images"
  else
    match MODEL_CAPABILITIES.find? (fun m => m.name = modelName) with
    | none => "Style Reference"
    | some model =>
      match firstPreferredGuidanceName model.supportedGuidanceTypes preferredGuidanceTypes with
      | some n => n
      | none =>
        if model.supportedGuidanceTypes.contains GuidanceKind.STYLE then "Style Reference"
        else if model.supportedGuidanceTypes.contains GuidanceKind.CONTENT then "Content Reference"
        else if model.supportedGuidanceTypes.contains GuidanceKind.CHARACTER then "Character Reference"
        else "Style Reference"

/-! ### Auto model selection: text-complexity analysis -/

/-- The result type of `analyzeTextComplexity` (`'none' | 'short' | 'long'`). -/
inductive TextComplexity where
  | none
  | short
  | long
deriving DecidableEq, Repr

/-- Splits a char list at the first occurrence of `q`: the characters before
it and the remainder after it, or `Option.none` when `q` does not occur. -/
def takeBeforeChar (q : Char) : List Char → Option (List Char × List Char)
  | [] => Option.none
  | c :: t =>
    if c = q then some ([], t)
    else (takeBeforeChar q t).map (fun p => (c :: p.1, p.2))

/-- First match of the JS regex `/q([^q]{1,50})q/g` for a quote character `q`:
the regex engine tries every occurrence of `q` from the left; at an occurrence
the quantifier `[^q]{1,50}` can only consume the (quote-free) characters up to
the next `q`, so the attempt succeeds exactly when that stretch has length
1..50, and otherwise the engine moves on to the next occurrence of `q`. -/
def scanQuoted (q : Char) : List Char → Option (List Char)
  | [] => Option.none
  | c :: rest =>
    if c = q then
      match takeBeforeChar q rest with
      | some (content, _) =>
        if 1 ≤ content.length ∧ content.length ≤ 50 then some content
        else scanQuoted q rest
      | Option.none => Option.none
    else scanQuoted q rest

/-- Classification of a captured quoted group in `analyzeTextComplexity`:
`wordCount <= 2 → 'short'`, otherwise (`wordCount >= 3`, the only remaining
possibility for a `Nat` word count) `'long'`. -/
def classifyQuotedGroup (content : List Char) : TextComplexity :=
  if jsWordCount content ≤ 2 then .short else .long

/-- The `quotedTextPatterns` loop of `analyzeTextComplexity`. The loop returns
on the first match with a non-empty capture group; a capture of `[^"]{1,50}`
is never empty, so the first match of the first matching pattern decides.
Patterns 3-7 (`reading "..."`, `says "..."`, `text "..."`, `label "..."`,
`sign "..."`) each contain a double-quoted segment that is itself a match of
pattern 1 `/"([^"]{1,50})"/g`, so they can never match when pattern 1 has no
match; only patterns 1 and 2 (the bare double- and single-quote scans) are
reachable. -/
def quotedOverrideDecision (p : List Char) : Option TextComplexity :=
  match scanQuoted dquoteChar p with
  | some content => some (classifyQuotedGroup content)
  | Option.none =>
    match scanQuoted squoteChar p with
    | some content => some (classifyQuotedGroup content)
    | Option.none => Option.none

/-- The quoted-text override block of `analyzeTextComplexity`, including the
JS truthiness guard on `originalPrompt` (an absent or empty prompt skips the
block). The marker guard (`NEEDS TEXT LONG`/`NEEDS TEXT SHORT` present) is
applied by the caller `analyzeTextComplexity`. -/
def quotedDecisionOf (originalPrompt : Option String) : Option TextComplexity :=
  match originalPrompt with
  | some p => if p = "" then Option.none else quotedOverrideDecision p.data
  | Option.none => Option.none

/-- One `shortTextPatterns` entry of the backup analysis: a case-insensitive
literal, an optional single character from `optChars`, a space, then a quoted
group `["']([^"']{1,20})["']`. -/
structure ShortTextPattern where
  lit : List Char
  optChars : List Char

/-- The five `shortTextPatterns` (lower-cased literals; `[s]?` and `[ed]?`
are optional single-character classes). -/
def shortTextPatterns : List ShortTextPattern :=
  [ { lit := "add the word".data, optChars := ['s'] },
    { lit := "write".data, optChars := [] },
    { lit := "text say".data, optChars := ['s'] },
    { lit := "label".data, optChars := ['e', 'd'] },
    { lit := "sign say".data, optChars := ['s'] } ]

/-- Is `c` one of the two quote characters (the class `["']`)? -/
def isQuoteChar (c : Char) : Bool :=
  c = dquoteChar || c = squoteChar

/-- After the opening quote of a `["']([^"']{1,20})["']` tail: the group runs
to the next quote character of either kind and must have length 1..20. -/
def matchQuotedTail20 (l : List Char) : Option (List Char) :=
  match l with
  | [] => Option.none
  | c :: rest =>
    if isQuoteChar c then
      match (rest.span (fun d => !isQuoteChar d)) with
      | (content, closing) =>
        if closing.isEmpty then Option.none
        else if 1 ≤ content.length ∧ content.length ≤ 20 then some content
        else Option.none
    else Option.none

/-- Attempt a `ShortTextPattern` at the head of the (lower-cased) prompt:
literal, then (greedily) an optional character from the class, a space, and
the quoted group. -/
def matchShortPatternAt (pat : ShortTextPattern) (l : List Char) : Option (List Char) :=
  if pat.lit.isPrefixOf l then
    let afterLit := l.drop pat.lit.length
    let tryTail : List Char → Option (List Char) := fun t =>
      match t with
      | ' ' :: u => matchQuotedTail20 u
      | _ => Option.none
    match afterLit with
    | c :: u =>
      if pat.optChars.contains c then
        match tryTail u with
        | some g => some g
        | Option.none => tryTail afterLit
      else tryTail afterLit
    | [] => Option.none
  else Option.none

/-- Leftmost match of a `ShortTextPattern` in the (lower-cased) prompt. -/
def findShortPattern (pat : ShortTextPattern) : List Char → Option (List Char)
  | [] => Option.none
  | c :: t =>
    match matchShortPatternAt pat (c :: t) with
    | some g => some g
    | Option.none => findShortPattern pat t

/-- The `shortTextPatterns` loop: for each pattern in order, take its first
match; a captured group of word count ≤ 2 yields `'short'`, otherwise the next
pattern is tried. -/
def shortPatternsDecision (lp : List Char) : List ShortTextPattern → Option TextComplexity
  | [] => Option.none
  | pat :: rest =>
    match findShortPattern pat lp with
    | some content =>
      if jsWordCount content ≤ 2 then some .short
      else shortPatternsDecision lp rest
    | Option.none => shortPatternsDecision lp rest

/-- The `longTextPatterns` keyword list (case-insensitive literal searches). -/
def longTextKeywords : List String :=
  ["paragraph", "sentence", "story", "description", "article", "essay",
   "multiple words", "several words", "long text", "detailed text"]

/-- Lower-case a char list (ASCII-sufficient model of JS case-insensitive
matching for these fixed ASCII literals). -/
def toLowerList (l : List Char) : List Char := l.map Char.toLower

/-- The backup analysis of the generic `NEEDS TEXT` branch of
`analyzeTextComplexity`: short-text patterns, then long-text keywords, then
the whole-prompt word count (≤ 5 ⇒ `'short'`), and finally the default
`'short'` for ambiguous cases — so every path not hitting a long keyword
returns `'short'`. -/
def backupTextAnalysis (originalPrompt : Option String) : TextComplexity :=
  match originalPrompt with
  | some p =>
    if p = "" then .short
    else
      let lp := toLowerList p.data
      match shortPatternsDecision lp shortTextPatterns with
      | some r => r
      | Option.none =>
        if longTextKeywords.any (fun k => listIsInfix k.data lp) then .long
        else
          -- prompt word count ≤ 5 returns 'short'; the fall-through default
          -- is 'short' as well
          .short
  | Option.none => .short

/-- `analyzeTextComplexity`. -/
def analyzeTextComplexity (recommendationString : String)
    (originalPrompt : Option String) : TextComplexity :=
  let hasLong := jsIncludes recommendationString "NEEDS TEXT LONG"
  let hasShort := jsIncludes recommendationString "NEEDS TEXT SHORT"
  let overrideResult : Option TextComplexity :=
    if hasLong || hasShort then quotedDecisionOf originalPrompt else Option.none
  match overrideResult with
  | some r => r
  | Option.none =>
    if hasLong then .long
    else if hasShort then .short
    else if jsIncludes recommendationString "NEEDS TEXT" then
      backupTextAnalysis originalPrompt
    else .none

/-! ### Auto model selection: the selector -/

/-- The return shape of `selectOptimalModel`; guidance names are the literal
UI strings of the source. -/
structure SelectionResult where
  selectedModel : String
  recommendedGuidanceType : Option String
deriving DecidableEq, Repr

/-- Stable insertion of a model into a rank-sorted list (`sort` with the
comparator `(a, b) => a.rank - b.rank`). -/
def insertByRank (m : ModelCapabilities) : List ModelCapabilities → List ModelCapabilities
  | [] => [m]
  | h :: t => if m.rank < h.rank then m :: h :: t else h :: insertByRank m t

/-- `candidateModels.sort((a, b) => a.rank - b.rank)`. -/
def sortByRank (l : List ModelCapabilities) : List ModelCapabilities :=
  l.foldr insertByRank []

/-- Step 5 filter: models supporting at least one preferred guidance kind. -/
def guidanceFilter (prefs : List GuidanceKind) (models : List ModelCapabilities) :
    List ModelCapabilities :=
  models.filter (fun m => prefs.any (fun t => m.supportedGuidanceTypes.contains t))

/-- Steps 5 of `selectOptimalModel`: when preferences exist and the filter is
non-empty, keep the filtered set, else keep the incoming candidates. -/
def applyGuidancePreference (prefs : List GuidanceKind)
    (models : List ModelCapabilities) : List ModelCapabilities :=
  if prefs.length > 0 then
    let filtered := guidanceFilter prefs models
    if filtered.length > 0 then filtered else models
  else models

/-- `selectOptimalModel` (later revision, with the dedicated long/short text
routing at step 4). -/
def selectOptimalModel (recommendationString : String) (referenceImageCount : Nat)
    (originalPrompt : Option String := Option.none) : SelectionResult :=
  let recommendation := parseRecommendation recommendationString
  -- Step 1: image editing routes straight to FLUX.1 Kontext
  if recommendation.needsImageEdit then
    { selectedModel := "FLUX.1 Kontext",
      recommendedGuidanceType :=
        if referenceImageCount > 0 then some "Context Images" else Option.none }
  -- Step 2: any reference images route straight to FLUX.1 Kontext Pro
  else if referenceImageCount > 0 then
    { selectedModel := "FLUX.1 Kontext Pro",
      recommendedGuidanceType := some "Context Images" }
  else
    -- Step 3: all models are candidates
    let candidateModels := MODEL_CAPABILITIES
    -- Step 4: text requirements return directly per complexity
    let step4 : Option SelectionResult :=
      if recommendation.needsText then
        match analyzeTextComplexity recommendationString originalPrompt with
        | .long =>
          some { selectedModel := "Leonardo Phoenix 1.0",
                 recommendedGuidanceType :=
                   if recommendation.preferredGuidanceTypes.length > 0 then
                     some (selectGuidanceType "Leonardo Phoenix 1.0"
                            recommendation.preferredGuidanceTypes)
                   else Option.none }
        | .short =>
          some { selectedModel := "Lucid Origin",
                 recommendedGuidanceType :=
                   if recommendation.preferredGuidanceTypes.length > 0 then
                     some (selectGuidanceType "Lucid Origin"
                            recommendation.preferredGuidanceTypes)
                   else Option.none }
        | .none => Option.none
      else Option.none
    match step4 with
    | some res => res
    | Option.none =>
      -- Step 5: prefer guidance-compatible models when any survive the filter
      let candidateModels := applyGuidancePreference
        recommendation.preferredGuidanceTypes candidateModels
      -- Steps 6-8: empty fallback, else lowest rank wins, no guidance
      match sortByRank candidateModels with
      | [] => { selectedModel := "Lucid Origin", recommendedGuidanceType := Option.none }
      | best :: _ => { selectedModel := best.name, recommendedGuidanceType := Option.none }

/-! ### Generation jobs (`App.tsx`) -/

/-- `GenerationJob.status` (`'enhancing' | 'loading' | 'completed' | 'error'`). -/
inductive JobStatus where
  | enhancing
  | loading
  | completed
  | error
deriving DecidableEq, Repr

/-- A generated image entry of a poll response (`generated_images` item). -/
structure GeneratedImage where
  id : String
  url : String
deriving DecidableEq, Repr

/-- A produced media item as stored on the job (`MediaItem`, the fields the
claims touch). -/
structure MediaItem where
  mediaId : String
  url : String
deriving DecidableEq, Repr

/-- The `GenerationJob` record of `App.tsx` (the fields the claims touch). -/
structure GenerationJob where
  id : String
  prompt : String
  enhancedPrompt : Option String
  status : JobStatus
  error : Option String
  images : List MediaItem
  model : String
  actualModel : Option String
deriving DecidableEq, Repr

/-- Result of `enhanceWithGemini` as consumed by `handleGenerate`. -/
structure EnhanceResult where
  enhancedPrompt : String
  recommendedModel : String
  recommendedGuidanceType : Option String
deriving DecidableEq, Repr

/-- The local variables of the background generation task that the
enhancement stage assigns. -/
structure EnhanceStageState where
  promptToSend : String
  actualModelToUse : String
  jobModelName : String
  actualModelForJob : Option String
deriving DecidableEq, Repr

/-- The enhancement stage of `handleGenerate`'s background task (the
`try`/`catch` around `enhanceWithGemini`): on success the enhanced prompt and
(under `Auto`) the recommended model are adopted; on failure the original
prompt is kept and `Auto` falls back to `Lucid Origin`; in both cases the job
record is updated to status `loading`. (The success branch also refreshes the
job's reference configuration, which no claim touches.) -/
def enhancementStage (selectedModel currentPrompt : String) (job : GenerationJob)
    (result : Except String EnhanceResult) : EnhanceStageState × GenerationJob :=
  match result with
  | .ok r =>
    let s : EnhanceStageState :=
      if selectedModel = "Auto" then
        { promptToSend := r.enhancedPrompt, actualModelToUse := r.recommendedModel,
          jobModelName := "Auto", actualModelForJob := some r.recommendedModel }
      else
        { promptToSend := r.enhancedPrompt, actualModelToUse := selectedModel,
          jobModelName := selectedModel, actualModelForJob := some selectedModel }
    (s, { job with enhancedPrompt := some s.promptToSend, status := .loading,
                   actualModel := s.actualModelForJob })
  | .error _ =>
    let s : EnhanceStageState :=
      if selectedModel = "Auto" then
        { promptToSend := currentPrompt, actualModelToUse := "Lucid Origin",
          jobModelName := "Auto", actualModelForJob := some "Lucid Origin" }
      else
        { promptToSend := currentPrompt, actualModelToUse := selectedModel,
          jobModelName := selectedModel, actualModelForJob := some selectedModel }
    (s, { job with status := .loading, actualModel := s.actualModelForJob })

/-- The model validation step of `enhanceWithGemini`: the auto-selected model
must appear in the registry's model lists for the `image-generation` and
`image-edit` node kinds (concatenated); otherwise `Lucid Origin` is
substituted and a warning is reported (the returned `Bool`). The two lists
come from `getModelsForNodeType` in `modelConfig.ts`, which is not among the
sources, so they are parameters here. -/
def validateRecommendedModel (allImageModels allImageEditModels : List String)
    (selectedModel : String) : String × Bool :=
  let allValidModels := allImageModels ++ allImageEditModels
  if allValidModels.contains selectedModel then (selectedModel, false)
  else ("Lucid Origin", true)

/-- The alchemy/contrast fields of the generation payload. -/
structure PayloadQualityFlags where
  alchemy : Option Bool
  contrast : Option ℚ
deriving DecidableEq, Repr

/-- The alchemy/contrast section of `handleGenerate`'s payload construction.
`modelSupports` lives in `modelConfig.ts`, which is not among the sources, so
the feature predicate is a parameter. The contrast slider value is a JS
double used only through `Math.max` and assignment, modelled exactly on `ℚ`. -/
def applyAlchemyContrast (modelSupports : String → String → Bool)
    (actualModelToUse : String) (contrast : ℚ) : PayloadQualityFlags :=
  let isAlchemyModel := modelSupports actualModelToUse "alchemy"
  if isAlchemyModel then
    { alchemy := some true,
      contrast :=
        if jsIncludes actualModelToUse "Phoenix" then some (max contrast (5 / 2))
        else Option.none }
  else if modelSupports actualModelToUse "contrast" then
    { alchemy := Option.none, contrast := some contrast }
  else
    { alchemy := Option.none, contrast := Option.none }

/-- The submit response as consumed by `handleGenerate`:
`genJson?.sdGenerationJob?.generationId`, absent on a malformed response. -/
structure SubmitResponse where
  generationId : Option String
deriving DecidableEq, Repr

/-- The final poll response (`generations_by_pk`): the first polled status
outside `PENDING`/`PROCESSING`, plus the `generated_images` list. -/
structure PollFinal where
  status : String
  generatedImages : List GeneratedImage
deriving DecidableEq, Repr

/-- The submit/poll tail of `handleGenerate`'s background task, after the
payload is built. `submitOk` is `genResponse.ok`. Thrown errors are caught by
the surrounding `catch`, which stores status `error` plus the message on the
job. A non-`FAILED` terminal poll with a non-empty `generated_images` list
completes the job; with an empty list no branch fires and the job record is
left untouched. -/
def backendPhase (job : GenerationJob) (submitOk : Bool) (submit : SubmitResponse)
    (finalPoll : PollFinal) : GenerationJob :=
  if submitOk = false then
    { job with status := .error, error := some "API Error" }
  else
    match submit.generationId with
    | Option.none =>
      { job with status := .error, error := some "API response malformed." }
    | some _ =>
      if finalPoll.status = "FAILED" then
        { job with status := .error, error := some "Generation failed." }
      else if finalPoll.generatedImages.length > 0 then
        { job with status := .completed,
                   images := finalPoll.generatedImages.map
                     (fun item => { mediaId := item.id, url := item.url }) }
      else job

/-! ### Node output fan-out (`NodeComponent.tsx` and the `NODE_TYPES` registry) -/

/-- The declared output-port name lists of the `NODE_TYPES` registry
(each node kind declares exactly one output). -/
def nodeTypeOutputs : String → List String
  | "input-text" => ["Text"]
  | "input-image" => ["Image"]
  | "input-video" => ["Video"]
  | "image-generation" => ["Image"]
  | "text-to-video" => ["Video"]
  | "image-to-video" => ["Video"]
  | "image-edit" => ["Image"]
  | _ => []

/-- The node fields the output-rendering code reads: the type key and the
`numImages` / `numVideos` entries of the settings bag (absent entries are
`Option.none`). -/
structure NodeOutputView where
  typeKey : String
  numImages : Option Nat
  numVideos : Option Nat
deriving DecidableEq, Repr

/-- JS `x || 1` for the `numImages` setting: `undefined` and `0` are falsy. -/
def jsOrOne (v : Option Nat) : Nat :=
  match v with
  | some n => if n = 0 then 1 else n
  | Option.none => 1

/-- `numOutputsToRender` of `NodeComponent.tsx`: `settings.numImages || 1` for
`image-generation`, the statically declared output count for every other node
kind. -/
def numOutputsToRender (node : NodeOutputView) : Nat :=
  if node.typeKey = "image-generation" then jsOrOne node.numImages
  else (nodeTypeOutputs node.typeKey).length

/-- The rendered output connector names: when nothing is declared the column
renders nothing; otherwise `numOutputsToRender` connectors named after the
first declared output, numbered from 1 when there is more than one. -/
def renderedOutputNames (node : NodeOutputView) : List String :=
  match nodeTypeOutputs node.typeKey with
  | [] => []
  | name :: _ =>
    let n := numOutputsToRender node
    (List.range n).map (fun i =>
      if n > 1 then name ++ " " ++ toString (i + 1) else name)

/-! ### Claims -/

/-- C1: for every recommendation-tag string without the `IMAGE EDIT` marker
and every strictly positive reference-image count, `selectOptimalModel`
returns `FLUX.1 Kontext Pro` with recommended guidance `Context Images`,
regardless of the tags' text or guidance preferences and of the original
prompt. -/
theorem C1_reference_images_route_to_kontext_pro
    (rec : String) (n : Nat) (p : Option String)
    (hEdit : jsIncludes rec "IMAGE EDIT" = false) (hn : 0 < n) :
    selectOptimalModel rec n p =
      { selectedModel := "FLUX.1 Kontext Pro",
        recommendedGuidanceType := some "Context Images" } := by
  simp [selectOptimalModel, parseRecommendation, hEdit, hn]

/-- C1 witness: Scenario D, tags `""` with three reference images. -/
theorem C1_reference_images_route_to_kontext_pro_witness :
    jsIncludes "" "IMAGE EDIT" = false ∧ 0 < 3 ∧
    selectOptimalModel "" 3 Option.none =
      { selectedModel := "FLUX.1 Kontext Pro",
        recommendedGuidanceType := some "Context Images" } :=
  ⟨by decide, by decide,
   C1_reference_images_route_to_kontext_pro "" 3 Option.none (by decide) (by decide)⟩

/-- C2: for every recommendation-tag string containing the `IMAGE EDIT`
marker and every reference-image count, `selectOptimalModel` returns
`FLUX.1 Kontext` immediately, with guidance `Context Images` exactly when
reference images are present. -/
theorem C2_image_edit_routes_to_kontext
    (rec : String) (n : Nat) (p : Option String)
    (hEdit : jsIncludes rec "IMAGE EDIT" = true) :
    selectOptimalModel rec n p =
      { selectedModel := "FLUX.1 Kontext",
        recommendedGuidanceType :=
          if 0 < n then some "Context Images" else Option.none } := by
  simp [selectOptimalModel, parseRecommendation, hEdit]

/-- C2 witness: Scenario C, tags `IMAGE EDIT` with two reference images. -/
theorem C2_image_edit_routes_to_kontext_witness :
    jsIncludes "IMAGE EDIT" "IMAGE EDIT" = true ∧
    selectOptimalModel "IMAGE EDIT" 2 Option.none =
      { selectedModel := "FLUX.1 Kontext",
        recommendedGuidanceType := some "Context Images" } :=
  ⟨by decide, by
    have h := C2_image_edit_routes_to_kontext "IMAGE EDIT" 2 Option.none (by decide)
    simpa using h⟩

/-- C3 counterexample: the claim asserts that with tags `NEEDS TEXT LONG` and
no reference images the selector returns `Leonardo Phoenix 1.0` for every
original prompt; but for a prompt containing the two-word-or-less quoted text
`"hi"`, the quoted-text analysis overrides the explicit marker and the
selector returns `Lucid Origin`. -/
theorem C3_explicit_marker_precedence_counterexample :
    (selectOptimalModel "NEEDS TEXT LONG" 0
        (some "a sign reading \"hi\"")).selectedModel = "Lucid Origin" ∧
    ("Lucid Origin" : String) ≠ "Leonardo Phoenix 1.0" := by
  refine ⟨by decide, by decide⟩

/-- C3 amended: with no reference images and no image-edit marker, when the
tags carry an explicit text marker, the quoted-substring analysis of the
original prompt takes precedence over the markers; only when it finds nothing
(in particular when the prompt is absent) do the explicit markers decide, and
then `NEEDS TEXT LONG` routes to `Leonardo Phoenix 1.0` while the remaining
short case routes to `Lucid Origin`. -/
theorem C3_markers_decide_when_prompt_has_no_quotes
    (rec : String) (p : Option String)
    (hEdit : jsIncludes rec "IMAGE EDIT" = false)
    (hQ : quotedDecisionOf p = Option.none)
    (hText : jsIncludes rec "NEEDS TEXT LONG" = true ∨
             jsIncludes rec "NEEDS TEXT SHORT" = true) :
    (selectOptimalModel rec 0 p).selectedModel =
      if jsIncludes rec "NEEDS TEXT LONG" = true then "Leonardo Phoenix 1.0"
      else "Lucid Origin" := by
  cases hL : jsIncludes rec "NEEDS TEXT LONG" with
  | true =>
    simp [selectOptimalModel, parseRecommendation, analyzeTextComplexity,
          hEdit, hL, hQ]
  | false =>
    have hS : jsIncludes rec "NEEDS TEXT SHORT" = true := by
      rcases hText with h | h
      · rw [hL] at h; exact absurd h (by decide)
      · exact h
    simp [selectOptimalModel, parseRecommendation, analyzeTextComplexity,
          hEdit, hL, hS, hQ]

/-- C3 amended witness: Scenario E, tags `NEEDS TEXT LONG` with no original
prompt routes to `Leonardo Phoenix 1.0`. -/
theorem C3_markers_decide_when_prompt_has_no_quotes_witness :
    (selectOptimalModel "NEEDS TEXT LONG" 0 Option.none).selectedModel =
      "Leonardo Phoenix 1.0" := by
  have h := C3_markers_decide_when_prompt_has_no_quotes "NEEDS TEXT LONG"
    Option.none (by decide) (by decide) (Or.inl (by decide))
  simpa using h

/-- The eight preference lists `parseRecommendation` can produce (each of the
three `... REF` markers independently present or not, pushed in the fixed
order STYLE, CONTENT, CHARACTER). -/
def POSSIBLE_PREFS : List (List GuidanceKind) :=
  [[], [.CHARACTER], [.CONTENT], [.CONTENT, .CHARACTER], [.STYLE],
   [.STYLE, .CHARACTER], [.STYLE, .CONTENT], [.STYLE, .CONTENT, .CHARACTER]]

/-- Every parsed preference list is one of the eight possibilities. -/
theorem parsed_prefs_cases (rec : String) :
    (parseRecommendation rec).preferredGuidanceTypes ∈ POSSIBLE_PREFS := by
  cases h1 : jsIncludes rec "STYLE REF" <;>
    cases h2 : jsIncludes rec "CONTENT REF" <;>
      cases h3 : jsIncludes rec "CHARACTER REF" <;>
        simp [parseRecommendation, POSSIBLE_PREFS, h1, h2, h3]

/-- The value computed by steps 5-8 of `selectOptimalModel` (guidance filter,
empty-set fallback, rank sort, no guidance). -/
def step5to8Result (prefs : List GuidanceKind) : SelectionResult :=
  match sortByRank (applyGuidancePreference prefs MODEL_CAPABILITIES) with
  | [] => { selectedModel := "Lucid Origin", recommendedGuidanceType := Option.none }
  | best :: _ => { selectedModel := best.name, recommendedGuidanceType := Option.none }

/-- When no image edit is requested, there are no reference images, and the
text branch does not fire (no text needed, or ambiguous complexity), the
selector computes exactly the steps 5-8 value. -/
theorem selectOptimalModel_fallthrough (rec : String) (p : Option String)
    (hE : (parseRecommendation rec).needsImageEdit = false)
    (h4 : (parseRecommendation rec).needsText = false ∨
          analyzeTextComplexity rec p = .none) :
    selectOptimalModel rec 0 p =
      step5to8Result (parseRecommendation rec).preferredGuidanceTypes := by
  rcases h4 with h | h
  · simp [selectOptimalModel, step5to8Result, hE, h]
  · cases hT : (parseRecommendation rec).needsText
    · simp [selectOptimalModel, step5to8Result, hE, hT]
    · simp [selectOptimalModel, step5to8Result, hE, hT, h]

/-- Core facts about steps 5-8, checked over each possible preference list:
the filter is non-empty whenever preferences exist, the final candidate set
is non-empty, no guidance is produced, and the selected model is a
minimum-rank member of the final candidate set. -/
theorem step5to8_core (prefs : List GuidanceKind) (hmem : prefs ∈ POSSIBLE_PREFS) :
    (prefs = [] ∨ guidanceFilter prefs MODEL_CAPABILITIES ≠ []) ∧
    applyGuidancePreference prefs MODEL_CAPABILITIES ≠ [] ∧
    (step5to8Result prefs).recommendedGuidanceType = Option.none ∧
    (step5to8Result prefs).selectedModel ∈
      (["FLUX.1 Kontext", "FLUX.1 Kontext Pro", "Leonardo Phoenix 1.0",
        "Lucid Origin"] : List String) ∧
    ∃ best ∈ applyGuidancePreference prefs MODEL_CAPABILITIES,
      (step5to8Result prefs).selectedModel = best.name ∧
      ∀ m ∈ applyGuidancePreference prefs MODEL_CAPABILITIES,
        best.rank ≤ m.rank := by
  fin_cases hmem <;> decide

/-- C4: in the branch with no reference images, no image-edit marker and no
text requirement, the guidance filter never yields an empty candidate set
(when preferences exist, the filter over the capability table is non-empty,
and an empty filter result would keep the unfiltered set anyway), the final
candidate set is non-empty, the returned model is a minimum-rank member of
the final candidate set, and no guidance recommendation is produced. -/
theorem C4_guidance_filter_and_min_rank
    (rec : String) (p : Option String)
    (hEdit : jsIncludes rec "IMAGE EDIT" = false)
    (hL : jsIncludes rec "NEEDS TEXT LONG" = false)
    (hS : jsIncludes rec "NEEDS TEXT SHORT" = false) :
    ((parseRecommendation rec).preferredGuidanceTypes = [] ∨
      guidanceFilter (parseRecommendation rec).preferredGuidanceTypes
        MODEL_CAPABILITIES ≠ []) ∧
    applyGuidancePreference (parseRecommendation rec).preferredGuidanceTypes
      MODEL_CAPABILITIES ≠ [] ∧
    (selectOptimalModel rec 0 p).recommendedGuidanceType = Option.none ∧
    ∃ best ∈ applyGuidancePreference
        (parseRecommendation rec).preferredGuidanceTypes MODEL_CAPABILITIES,
      (selectOptimalModel rec 0 p).selectedModel = best.name ∧
      ∀ m ∈ applyGuidancePreference
          (parseRecommendation rec).preferredGuidanceTypes MODEL_CAPABILITIES,
        best.rank ≤ m.rank := by
  have hE : (parseRecommendation rec).needsImageEdit = false := by
    simp [parseRecommendation, hEdit]
  have hT : (parseRecommendation rec).needsText = false := by
    simp [parseRecommendation, hL, hS]
  rw [selectOptimalModel_fallthrough rec p hE (Or.inl hT)]
  obtain ⟨h1, h2, h3, -, h4⟩ := step5to8_core _ (parsed_prefs_cases rec)
  exact ⟨h1, h2, h3, h4⟩

/-- C4 witness: tags `CHARACTER REF` (guidance preference CHARACTER filters
the table down to `Leonardo Phoenix 1.0`, the minimum-rank survivor). -/
theorem C4_guidance_filter_and_min_rank_witness :
    ((parseRecommendation "CHARACTER REF").preferredGuidanceTypes = [] ∨
      guidanceFilter (parseRecommendation "CHARACTER REF").preferredGuidanceTypes
        MODEL_CAPABILITIES ≠ []) ∧
    applyGuidancePreference
      (parseRecommendation "CHARACTER REF").preferredGuidanceTypes
      MODEL_CAPABILITIES ≠ [] ∧
    (selectOptimalModel "CHARACTER REF" 0 Option.none).recommendedGuidanceType =
      Option.none ∧
    ∃ best ∈ applyGuidancePreference
        (parseRecommendation "CHARACTER REF").preferredGuidanceTypes
        MODEL_CAPABILITIES,
      (selectOptimalModel "CHARACTER REF" 0 Option.none).selectedModel = best.name ∧
      ∀ m ∈ applyGuidancePreference
          (parseRecommendation "CHARACTER REF").preferredGuidanceTypes
          MODEL_CAPABILITIES,
        best.rank ≤ m.rank :=
  C4_guidance_filter_and_min_rank "CHARACTER REF" Option.none
    (by decide) (by decide) (by decide)

/-- The guidance-name loop only ever produces one of the three non-context
UI names. -/
theorem firstPreferredGuidanceName_mem (supported : List GuidanceKind) :
    ∀ (prefs : List GuidanceKind) (s : String),
      firstPreferredGuidanceName supported prefs = some s →
      s ∈ (["Style Reference", "Content Reference",
            "Character Reference"] : List String) := by
  intro prefs
  induction prefs with
  | nil => intro s h; simp [firstPreferredGuidanceName] at h
  | cons t rest ih =>
    intro s h
    simp only [firstPreferredGuidanceName] at h
    by_cases hc : supported.contains t = true
    · rw [if_pos hc] at h
      cases t with
      | STYLE => simp at h; subst h; decide
      | CONTENT => simp at h; subst h; decide
      | CHARACTER => simp at h; subst h; decide
      | CONTEXT => exact ih s h
    · rw [if_neg hc] at h
      exact ih s h

/-- `selectGuidanceType` only ever returns one of the four guidance UI
names. -/
theorem selectGuidanceType_mem (name : String) (prefs : List GuidanceKind) :
    selectGuidanceType name prefs ∈
      (["Context Images", "Style Reference", "Content Reference",
        "Character Reference"] : List String) := by
  unfold selectGuidanceType
  split
  · simp
  · generalize MODEL_CAPABILITIES.find? (fun m => m.name = name) = res
    cases res with
    | none => simp
    | some model =>
      dsimp only
      generalize hfp : firstPreferredGuidanceName model.supportedGuidanceTypes prefs = fp
      cases fp with
      | none => dsimp only; split_ifs <;> simp
      | some s =>
        dsimp only
        have hmem := firstPreferredGuidanceName_mem model.supportedGuidanceTypes prefs s hfp
        simp only [List.mem_cons, List.not_mem_nil, or_false] at hmem ⊢
        tauto

/-- The step-4 guidance field of `selectOptimalModel` lies in the option
closure of the four guidance names. -/
theorem stepFourGuidance_mem (name : String) (prefs : List GuidanceKind)
    (c : Prop) [Decidable c] :
    (if c then some (selectGuidanceType name prefs) else Option.none) ∈
      ([Option.none, some "Context Images", some "Style Reference",
        some "Content Reference", some "Character Reference"] :
        List (Option String)) := by
  split
  · have hmem := selectGuidanceType_mem name prefs
    simp only [List.mem_cons, List.not_mem_nil, or_false] at hmem ⊢
    rcases hmem with h | h | h | h <;> simp [h]
  · simp

/-- The text-long branch of `selectOptimalModel`. -/
theorem selectOptimalModel_textLong (rec : String) (p : Option String)
    (hE : (parseRecommendation rec).needsImageEdit = false)
    (hT : (parseRecommendation rec).needsText = true)
    (hc : analyzeTextComplexity rec p = .long) :
    selectOptimalModel rec 0 p =
      { selectedModel := "Leonardo Phoenix 1.0",
        recommendedGuidanceType :=
          if (parseRecommendation rec).preferredGuidanceTypes.length > 0 then
            some (selectGuidanceType "Leonardo Phoenix 1.0"
              (parseRecommendation rec).preferredGuidanceTypes)
          else Option.none } := by
  simp [selectOptimalModel, hE, hT, hc]

/-- The text-short branch of `selectOptimalModel`. -/
theorem selectOptimalModel_textShort (rec : String) (p : Option String)
    (hE : (parseRecommendation rec).needsImageEdit = false)
    (hT : (parseRecommendation rec).needsText = true)
    (hc : analyzeTextComplexity rec p = .short) :
    selectOptimalModel rec 0 p =
      { selectedModel := "Lucid Origin",
        recommendedGuidanceType :=
          if (parseRecommendation rec).preferredGuidanceTypes.length > 0 then
            some (selectGuidanceType "Lucid Origin"
              (parseRecommendation rec).preferredGuidanceTypes)
          else Option.none } := by
  simp [selectOptimalModel, hE, hT, hc]

/-- C10: for every input triple, the selected model is one of the four model
names of the capability table and the image-edit list, and the recommended
guidance, when present, is one of the four named guidance values. -/
theorem C10_selector_range_invariant (rec : String) (n : Nat) (p : Option String) :
    (selectOptimalModel rec n p).selectedModel ∈
      (["FLUX.1 Kontext", "FLUX.1 Kontext Pro", "Leonardo Phoenix 1.0",
        "Lucid Origin"] : List String) ∧
    (selectOptimalModel rec n p).recommendedGuidanceType ∈
      ([Option.none, some "Context Images", some "Style Reference",
        some "Content Reference", some "Character Reference"] :
        List (Option String)) := by
  by_cases hE : (parseRecommendation rec).needsImageEdit = true
  · refine ⟨?_, ?_⟩ <;> simp only [selectOptimalModel, hE, if_true]
    · decide
    · split <;> decide
  · have hE' : (parseRecommendation rec).needsImageEdit = false :=
      Bool.not_eq_true _ ▸ Bool.eq_false_iff.mpr hE
    by_cases hn : 0 < n
    · refine ⟨?_, ?_⟩ <;> simp [selectOptimalModel, hE', hn]
    · have hn0 : n = 0 := Nat.eq_zero_of_not_pos hn
      subst hn0
      cases hT : (parseRecommendation rec).needsText with
      | false =>
        rw [selectOptimalModel_fallthrough rec p hE' (Or.inl hT)]
        obtain ⟨-, -, hg, hsel, -⟩ := step5to8_core _ (parsed_prefs_cases rec)
        exact ⟨hsel, by rw [hg]; decide⟩
      | true =>
        cases hc : analyzeTextComplexity rec p with
        | none =>
          rw [selectOptimalModel_fallthrough rec p hE' (Or.inr hc)]
          obtain ⟨-, -, hg, hsel, -⟩ := step5to8_core _ (parsed_prefs_cases rec)
          exact ⟨hsel, by rw [hg]; decide⟩
        | long =>
          rw [selectOptimalModel_textLong rec p hE' hT hc]
          exact ⟨by simp, stepFourGuidance_mem _ _ _⟩
        | short =>
          rw [selectOptimalModel_textShort rec p hE' hT hc]
          exact ⟨by simp, stepFourGuidance_mem _ _ _⟩

/-- C5: when the prompt-enhancement call fails, the job is not aborted: it
transitions to status `loading`, proceeds with the original unmodified
prompt, and when the selected model was `Auto` the model falls back to
`Lucid Origin`. -/
theorem C5_enhancement_failure_nonfatal
    (selectedModel currentPrompt : String) (job : GenerationJob) (e : String) :
    (enhancementStage selectedModel currentPrompt job (.error e)).2.status =
      JobStatus.loading ∧
    (enhancementStage selectedModel currentPrompt job (.error e)).1.promptToSend =
      currentPrompt ∧
    (enhancementStage selectedModel currentPrompt job (.error e)).1.actualModelToUse =
      (if selectedModel = "Auto" then "Lucid Origin" else selectedModel) := by
  by_cases h : selectedModel = "Auto" <;> simp [enhancementStage, h]

/-- C6: a model selected by the auto logic that is absent from the registry's
model lists for the image-generation and image-edit node kinds is replaced by
`Lucid Origin` with a warning, for every selected model name and every pair
of registry lists (the function is total, so no exception is possible). -/
theorem C6_unknown_model_soft_fallback
    (allImageModels allImageEditModels : List String) (m : String)
    (habs : (allImageModels ++ allImageEditModels).contains m = false) :
    validateRecommendedModel allImageModels allImageEditModels m =
      ("Lucid Origin", true) := by
  simp only [validateRecommendedModel, habs]
  simp

/-- C6 witness: a fantasy model name absent from both registry lists. -/
theorem C6_unknown_model_soft_fallback_witness :
    ((["Lucid Origin", "Leonardo Phoenix 1.0"] ++ ["FLUX.1 Kontext"] :
        List String).contains "Leonardo Phoenix 0.9" = false) ∧
    validateRecommendedModel ["Lucid Origin", "Leonardo Phoenix 1.0"]
      ["FLUX.1 Kontext"] "Leonardo Phoenix 0.9" = ("Lucid Origin", true) :=
  ⟨by decide,
   C6_unknown_model_soft_fallback ["Lucid Origin", "Leonardo Phoenix 1.0"]
     ["FLUX.1 Kontext"] "Leonardo Phoenix 0.9" (by decide)⟩

/-- C7 counterexample: the claim asserts that a poll response reporting
terminal completion with no generated images ends the job in status `error`;
but on such a response no branch of the submit/poll tail fires, so the job
record is left untouched and stays in `loading`. -/
theorem C7_empty_completion_counterexample :
    (backendPhase
      { id := "job-1", prompt := "a cat", enhancedPrompt := Option.none,
        status := .loading, error := Option.none, images := [],
        model := "Auto", actualModel := some "Lucid Origin" }
      true { generationId := some "gen-1" }
      { status := "COMPLETE", generatedImages := [] }).status =
        JobStatus.loading ∧
    JobStatus.loading ≠ JobStatus.error :=
  ⟨rfl, by decide⟩

/-- C7 amended: a submit response with no generation id ends the job in the
terminal status `error` with an error message recorded, exactly as for a
backend failure; but a poll response reporting terminal completion with no
generated images fires no branch, leaving the job record unchanged (it stays
`loading` with no error recorded) rather than ending in `error`. -/
theorem C7_malformed_submit_errors_empty_completion_keeps_job
    (job : GenerationJob) (poll : PollFinal) (gid : String) (st : String)
    (hst : st ≠ "FAILED") :
    (backendPhase job true { generationId := Option.none } poll).status =
      JobStatus.error ∧
    (backendPhase job true { generationId := Option.none } poll).error =
      some "API response malformed." ∧
    backendPhase job true { generationId := some gid }
      { status := st, generatedImages := [] } = job := by
  refine ⟨?_, ?_, ?_⟩ <;> simp [backendPhase, hst]

/-- C7 amended witness: a `COMPLETE` poll with no images leaves a concrete
loading job untouched, while a missing generation id errors it. -/
theorem C7_malformed_submit_errors_empty_completion_keeps_job_witness :
    (backendPhase
      { id := "job-1", prompt := "a cat", enhancedPrompt := Option.none,
        status := .loading, error := Option.none, images := [],
        model := "Auto", actualModel := some "Lucid Origin" }
      true { generationId := Option.none }
      { status := "COMPLETE", generatedImages := [] }).status =
        JobStatus.error ∧
    (backendPhase
      { id := "job-1", prompt := "a cat", enhancedPrompt := Option.none,
        status := .loading, error := Option.none, images := [],
        model := "Auto", actualModel := some "Lucid Origin" }
      true { generationId := Option.none }
      { status := "COMPLETE", generatedImages := [] }).error =
        some "API response malformed." ∧
    backendPhase
      { id := "job-1", prompt := "a cat", enhancedPrompt := Option.none,
        status := .loading, error := Option.none, images := [],
        model := "Auto", actualModel := some "Lucid Origin" }
      true { generationId := some "gen-1" }
      { status := "COMPLETE", generatedImages := [] } =
      { id := "job-1", prompt := "a cat", enhancedPrompt := Option.none,
        status := .loading, error := Option.none, images := [],
        model := "Auto", actualModel := some "Lucid Origin" } :=
  C7_malformed_submit_errors_empty_completion_keeps_job
    { id := "job-1", prompt := "a cat", enhancedPrompt := Option.none,
      status := .loading, error := Option.none, images := [],
      model := "Auto", actualModel := some "Lucid Origin" }
    { status := "COMPLETE", generatedImages := [] } "gen-1" "COMPLETE"
    (by decide)

/-- C8: the rendered output connectors are setting-driven only for the
`image-generation` node kind; a video node (`text-to-video` is the only video
generation kind in the registry) with a `numVideos` setting of 3 still
renders the single statically declared `Video` connector, while an
`image-generation` node with `numImages` 3 renders three numbered `Image`
connectors. -/
theorem C8_video_fanout_missing :
    renderedOutputNames
      { typeKey := "text-to-video", numImages := Option.none,
        numVideos := some 3 } = ["Video"] ∧
    (renderedOutputNames
      { typeKey := "text-to-video", numImages := Option.none,
        numVideos := some 3 }).length = 1 ∧
    renderedOutputNames
      { typeKey := "image-generation", numImages := some 3,
        numVideos := Option.none } = ["Image 1", "Image 2", "Image 3"] :=
  ⟨rfl, rfl, rfl⟩

/-- C9: for a model supporting the alchemy feature the payload sets
`alchemy = true`; the contrast field is `max(contrast, 2.5)` exactly for the
Phoenix family (and absent otherwise), and that value is never below 2.5. -/
theorem C9_alchemy_contrast_floor
    (modelSupports : String → String → Bool) (m : String) (c : ℚ)
    (hal : modelSupports m "alchemy" = true) :
    (applyAlchemyContrast modelSupports m c).alchemy = some true ∧
    (applyAlchemyContrast modelSupports m c).contrast =
      (if jsIncludes m "Phoenix" = true then some (max c (5 / 2))
       else Option.none) ∧
    (5 : ℚ) / 2 ≤ max c (5 / 2) := by
  refine ⟨?_, ?_, le_max_right _ _⟩ <;> simp [applyAlchemyContrast, hal]

/-- C9 witness: a feature table granting alchemy, evaluated on
`Leonardo Phoenix 1.0` with user contrast 1. -/
theorem C9_alchemy_contrast_floor_witness :
    (applyAlchemyContrast (fun _ _ => true) "Leonardo Phoenix 1.0" 1).alchemy =
      some true ∧
    (applyAlchemyContrast (fun _ _ => true) "Leonardo Phoenix 1.0" 1).contrast =
      (if jsIncludes "Leonardo Phoenix 1.0" "Phoenix" = true then
        some (max 1 (5 / 2)) else Option.none) ∧
    (5 : ℚ) / 2 ≤ max 1 (5 / 2) :=
  C9_alchemy_contrast_floor (fun _ _ => true) "Leonardo Phoenix 1.0" 1 rfl

end AutoModelImgGen
